import Mathlib

/-!
Verification of the fitness-tracker formula hierarchy in `homework.py`.

Modelling conventions:
* Python floats are modelled as exact rationals (`ℚ`); the spec states all
  numeric expectations in exact decimal arithmetic.
* Fallible Python code (a `raise`) is modelled with `Except PyError`; a Python
  expression `a / b` raises `ZeroDivisionError` when `b == 0`, and `a // b`
  (float floor division, truncation toward negative infinity) likewise.
* Each Python class becomes a structure; inheritance becomes `extends`; the
  overridden methods are namespaced definitions mirroring the source bodies.
-/

/-- The Python exceptions that can arise in this program. -/
inductive PyError where
  | zeroDivisionError (msg : String)
  | notImplementedError (msg : String)
  | typeError (msg : String)
  | keyError (key : String)
  | exception (msg : String)
deriving DecidableEq, Repr

instance {ε α : Type} [DecidableEq ε] [DecidableEq α] : DecidableEq (Except ε α) := fun a b =>
  match a, b with
  | Except.ok x, Except.ok y =>
      if h : x = y then isTrue (by rw [h])
      else isFalse (fun he => h (Except.ok.inj he))
  | Except.error x, Except.error y =>
      if h : x = y then isTrue (by rw [h])
      else isFalse (fun he => h (Except.error.inj he))
  | Except.ok _, Except.error _ => isFalse (fun he => Except.noConfusion he)
  | Except.error _, Except.ok _ => isFalse (fun he => Except.noConfusion he)

/-- Python `a / b` on floats: raises `ZeroDivisionError` when `b == 0`. -/
def pyDiv (a b : ℚ) : Except PyError ℚ :=
  if b = 0 then Except.error (PyError.zeroDivisionError "float division by zero")
  else Except.ok (a / b)

/-- Python `a // b` on floats: floor division (truncation toward negative
infinity); raises `ZeroDivisionError` when `b == 0`. -/
def pyFloorDiv (a b : ℚ) : Except PyError ℚ :=
  if b = 0 then Except.error (PyError.zeroDivisionError "float floor division by zero")
  else Except.ok ((⌊a / b⌋ : ℤ) : ℚ)

/-- `MIN_IN_HOUR: int = 60` (module-level constant). -/
def MIN_IN_HOUR : ℚ := 60

/-- Base class `Training`: fields `action`, `duration` (hours), `weight`. -/
structure Training where
  action : ℚ
  duration : ℚ
  weight : ℚ
deriving DecidableEq, Repr

/-- `Training.LEN_STEP: float = 0.65`. -/
def Training.LEN_STEP : ℚ := 0.65

/-- `Training.M_IN_KM: int = 1000`. -/
def Training.M_IN_KM : ℚ := 1000

/-- `Training.get_distance`: `self.action * self.LEN_STEP / self.M_IN_KM`.
The divisor is the constant 1000, so the division is total. -/
def Training.get_distance (t : Training) : ℚ :=
  t.action * Training.LEN_STEP / Training.M_IN_KM

/-- `Training.get_mean_speed`: `self.get_distance() / self.duration`;
raises `ZeroDivisionError` when the duration is zero. -/
def Training.get_mean_speed (t : Training) : Except PyError ℚ :=
  pyDiv t.get_distance t.duration

/-- `Training.get_spent_calories`:
`raise NotImplementedError('Этот метод обязателен к переопределению!')`. -/
def Training.get_spent_calories (_ : Training) : Except PyError ℚ :=
  Except.error (PyError.notImplementedError "Этот метод обязателен к переопределению!")

/-- `class Running(Training)`: no extra fields. -/
structure Running extends Training
deriving DecidableEq, Repr

/-- `Running.CAL_RUN_1: int = 18`. -/
def Running.CAL_RUN_1 : ℚ := 18

/-- `Running.CAL_RUN_2: int = 20`. -/
def Running.CAL_RUN_2 : ℚ := 20

/-- `Running` inherits `get_distance` from `Training`. -/
def Running.get_distance (r : Running) : ℚ :=
  r.toTraining.get_distance

/-- `Running` inherits `get_mean_speed` from `Training`. -/
def Running.get_mean_speed (r : Running) : Except PyError ℚ :=
  r.toTraining.get_mean_speed

/-- `Running.get_spent_calories`:
`(CAL_RUN_1 * mean_speed - CAL_RUN_2) * weight / M_IN_KM * duration * MIN_IN_HOUR`. -/
def Running.get_spent_calories (r : Running) : Except PyError ℚ :=
  match r.get_mean_speed with
  | Except.error e => Except.error e
  | Except.ok s => Except.ok ((Running.CAL_RUN_1 * s - Running.CAL_RUN_2)
      * r.weight / Training.M_IN_KM * r.duration * MIN_IN_HOUR)

/-- `class SportsWalking(Training)`: extra field `height`. -/
structure SportsWalking extends Training where
  height : ℚ
deriving DecidableEq, Repr

/-- `SportsWalking.CAL_WLK_1: float = 0.035`. -/
def SportsWalking.CAL_WLK_1 : ℚ := 0.035

/-- `SportsWalking.CAL_WLK_2: float = 0.029`. -/
def SportsWalking.CAL_WLK_2 : ℚ := 0.029

/-- `SportsWalking` inherits `get_distance` from `Training`. -/
def SportsWalking.get_distance (w : SportsWalking) : ℚ :=
  w.toTraining.get_distance

/-- `SportsWalking` inherits `get_mean_speed` from `Training`. -/
def SportsWalking.get_mean_speed (w : SportsWalking) : Except PyError ℚ :=
  w.toTraining.get_mean_speed

/-- `SportsWalking.get_spent_calories`:
`(CAL_WLK_1 * weight + mean_speed**2 // height * CAL_WLK_2 * weight) * duration * MIN_IN_HOUR`.
Python evaluates `get_mean_speed()` first, then the float floor division by
`height` (which raises `ZeroDivisionError` when `height == 0`). -/
def SportsWalking.get_spent_calories (w : SportsWalking) : Except PyError ℚ :=
  match w.get_mean_speed with
  | Except.error e => Except.error e
  | Except.ok s =>
    match pyFloorDiv (s ^ 2) w.height with
    | Except.error e => Except.error e
    | Except.ok t => Except.ok
        ((SportsWalking.CAL_WLK_1 * w.weight + t * SportsWalking.CAL_WLK_2 * w.weight)
          * w.duration * MIN_IN_HOUR)

/-- `class Swimming(Training)`: extra fields `length_pool`, `count_pool`. -/
structure Swimming extends Training where
  length_pool : ℚ
  count_pool : ℚ
deriving DecidableEq, Repr

/-- `Swimming.LEN_STEP: float = 1.38` (overrides the base 0.65). -/
def Swimming.LEN_STEP : ℚ := 1.38

/-- `Swimming.CAL_SWM_1: float = 1.1`. -/
def Swimming.CAL_SWM_1 : ℚ := 1.1

/-- `Swimming.CAL_SWM_2: int = 2`. -/
def Swimming.CAL_SWM_2 : ℚ := 2

/-- `Swimming.get_distance` (override): `action * Swimming.LEN_STEP / M_IN_KM`. -/
def Swimming.get_distance (s : Swimming) : ℚ :=
  s.action * Swimming.LEN_STEP / Training.M_IN_KM

/-- `Swimming.get_mean_speed` (override):
`length_pool * count_pool / M_IN_KM / duration`. -/
def Swimming.get_mean_speed (s : Swimming) : Except PyError ℚ :=
  pyDiv (s.length_pool * s.count_pool / Training.M_IN_KM) s.duration

/-- `Swimming.get_spent_calories`:
`(mean_speed + CAL_SWM_1) * CAL_SWM_2 * weight`. -/
def Swimming.get_spent_calories (s : Swimming) : Except PyError ℚ :=
  match s.get_mean_speed with
  | Except.error e => Except.error e
  | Except.ok v => Except.ok ((v + Swimming.CAL_SWM_1) * Swimming.CAL_SWM_2 * s.weight)

/-- A successfully dispatched record: one of the three concrete subclasses of
`Training` that `read_package` can construct. -/
inductive Package where
  | swimming (s : Swimming)
  | running (r : Running)
  | walking (w : SportsWalking)
deriving DecidableEq, Repr

/-- Dynamic dispatch of `get_spent_calories` on a dispatched record: each of
the three concrete classes overrides the base method, so the base
`NotImplementedError` branch is never the one invoked. -/
def Package.get_spent_calories : Package → Except PyError ℚ
  | Package.swimming s => s.get_spent_calories
  | Package.running r => r.get_spent_calories
  | Package.walking w => w.get_spent_calories

/-- Dynamic dispatch of `get_distance` on a dispatched record. -/
def Package.get_distance : Package → ℚ
  | Package.swimming s => s.get_distance
  | Package.running r => r.get_distance
  | Package.walking w => w.get_distance

/-- Dynamic dispatch of `get_mean_speed` on a dispatched record. -/
def Package.get_mean_speed : Package → Except PyError ℚ
  | Package.swimming s => s.get_mean_speed
  | Package.running r => r.get_mean_speed
  | Package.walking w => w.get_mean_speed

/-- The body of the `try:` block in `read_package`:
`read_dict[workout_type](*data)`. A code absent from `read_dict` raises
`KeyError`; unpacking `data` into a constructor of the wrong arity raises
`TypeError`. -/
def dispatch (workout_type : String) (data : List ℚ) : Except PyError Package :=
  if workout_type = "SWM" then
    match data with
    | [a, d, w, lp, cp] => Except.ok (Package.swimming ⟨⟨a, d, w⟩, lp, cp⟩)
    | _ => Except.error (PyError.typeError "constructor arity mismatch")
  else if workout_type = "RUN" then
    match data with
    | [a, d, w] => Except.ok (Package.running ⟨⟨a, d, w⟩⟩)
    | _ => Except.error (PyError.typeError "constructor arity mismatch")
  else if workout_type = "WLK" then
    match data with
    | [a, d, w, h] => Except.ok (Package.walking ⟨⟨a, d, w⟩, h⟩)
    | _ => Except.error (PyError.typeError "constructor arity mismatch")
  else Except.error (PyError.keyError workout_type)

/-- `read_package`: the `try`/`except Exception` wrapper around `dispatch`.
Any exception raised inside — `KeyError` for an unknown code as well as
`TypeError` for an arity mismatch — is caught and re-raised as
`Exception('Неизвестный тип тренеровки.')`. -/
def read_package (workout_type : String) (data : List ℚ) : Except PyError Package :=
  match dispatch workout_type data with
  | Except.ok t => Except.ok t
  | Except.error _ => Except.error (PyError.exception "Неизвестный тип тренеровки.")

/-- `self.__class__.__name__` of a dispatched record. -/
def Package.className : Package → String
  | Package.swimming _ => "Swimming"
  | Package.running _ => "Running"
  | Package.walking _ => "SportsWalking"

/-- The `duration` field of a dispatched record. -/
def Package.duration : Package → ℚ
  | Package.swimming s => s.duration
  | Package.running r => r.duration
  | Package.walking w => w.duration

/-- The report produced by one workout record (the numeric fields of
`InfoMessage`; the `message` field keeps its default template). -/
structure InfoMessage where
  training_type : String
  duration : ℚ
  distance : ℚ
  speed : ℚ
  calories : ℚ
deriving DecidableEq, Repr

/-- The decimal digit character of `n % 10`. -/
def decimalDigit (n : ℕ) : Char :=
  if n % 10 = 0 then '0' else if n % 10 = 1 then '1' else if n % 10 = 2 then '2'
  else if n % 10 = 3 then '3' else if n % 10 = 4 then '4' else if n % 10 = 5 then '5'
  else if n % 10 = 6 then '6' else if n % 10 = 7 then '7' else if n % 10 = 8 then '8'
  else '9'

/-- The decimal digits of `n`, least significant first. -/
def natDigitsRev (n : ℕ) : List Char :=
  if n < 10 then [decimalDigit n]
  else decimalDigit (n % 10) :: natDigitsRev (n / 10)
termination_by n
decreasing_by simp_wf; omega

/-- The usual decimal rendering of a natural number. -/
def natReprChars (n : ℕ) : List Char := (natDigitsRev n).reverse

/-- The three fractional digits of a count `n` of thousandths (`n < 1000`
whenever it is used), most significant first. -/
def frac3Chars (n : ℕ) : List Char :=
  [decimalDigit (n / 100), decimalDigit (n / 10), decimalDigit n]

/-- Python string formatting `:.3f` applied to `q`: an optional sign, the
integer digits, a dot, and exactly three fractional digits. The value is
rounded to the nearest thousandth; tie-breaking of the underlying binary
float is below the resolution of this exact rational model. -/
def fmt3 (q : ℚ) : String :=
  let m : ℤ := ⌊q * 1000 + 1 / 2⌋
  let n : ℕ := m.natAbs
  String.mk ((if m < 0 then ['-'] else []) ++ natReprChars (n / 1000)
    ++ '.' :: frac3Chars (n % 1000))

/-- `InfoMessage.get_message`: `self.message.format(**asdict(self))` with the
default template. Substituting the five fields into the fixed template cannot
fail, so the `except` branch re-raising
`Exception('Ошибка форматирования сообщения.')` is unreachable and the result
is the substituted template string. -/
def InfoMessage.get_message (i : InfoMessage) : String :=
  "Тип тренировки: " ++ i.training_type ++ "; Длительность: " ++ fmt3 i.duration
    ++ " ч.; Дистанция: " ++ fmt3 i.distance ++ " км; Ср. скорость: " ++ fmt3 i.speed
    ++ " км/ч; Потрачено ккал: " ++ fmt3 i.calories ++ "."

/-- `Training.show_training_info` under dynamic dispatch: builds the
`InfoMessage` from the class name, the stored duration and the computed
metrics. Python evaluates `get_distance()` (total), then `get_mean_speed()`,
then `get_spent_calories()`; an exception in either of the latter two
propagates. -/
def Package.show_training_info (p : Package) : Except PyError InfoMessage :=
  match p.get_mean_speed with
  | Except.error e => Except.error e
  | Except.ok sp =>
    match p.get_spent_calories with
    | Except.error e => Except.error e
    | Except.ok cal =>
        Except.ok ⟨p.className, p.duration, p.get_distance, sp, cal⟩

/-- `s` renders a number to exactly three decimal places: an optional sign and
integer digits, then a dot, then exactly three digit characters. -/
def renders3 (s : String) : Prop :=
  ∃ pre frac : List Char, s.data = pre ++ '.' :: frac ∧ frac.length = 3 ∧
    (∀ c ∈ frac, c.isDigit = true) ∧ (∀ c ∈ pre, c.isDigit = true ∨ c = '-')

theorem decimalDigit_isDigit (n : ℕ) : (decimalDigit n).isDigit = true := by
  unfold decimalDigit
  split_ifs <;> decide

theorem natDigitsRev_isDigit : ∀ n : ℕ, ∀ c ∈ natDigitsRev n, c.isDigit = true := by
  intro n
  induction n using Nat.strong_induction_on with
  | _ n ih =>
    rw [natDigitsRev]
    split
    · intro c hc
      rw [List.mem_singleton] at hc
      rw [hc]
      exact decimalDigit_isDigit _
    · intro c hc
      rcases List.mem_cons.mp hc with h | h
      · rw [h]
        exact decimalDigit_isDigit _
      · exact ih (n / 10) (by omega) c h

theorem natReprChars_isDigit (n : ℕ) : ∀ c ∈ natReprChars n, c.isDigit = true := by
  intro c hc
  exact natDigitsRev_isDigit n c (List.mem_reverse.mp hc)

theorem fmt3_renders3 (q : ℚ) : renders3 (fmt3 q) := by
  refine ⟨(if (⌊q * 1000 + 1 / 2⌋ : ℤ) < 0 then ['-'] else [])
      ++ natReprChars ((⌊q * 1000 + 1 / 2⌋ : ℤ).natAbs / 1000),
    frac3Chars ((⌊q * 1000 + 1 / 2⌋ : ℤ).natAbs % 1000), ?_, rfl, ?_, ?_⟩
  · simp [fmt3]
  · intro c hc
    simp [frac3Chars] at hc
    rcases hc with h | h | h <;> rw [h] <;> exact decimalDigit_isDigit _
  · intro c hc
    rcases List.mem_append.mp hc with h | h
    · split at h
      · right
        simpa using h
      · simp at h
    · left
      exact natReprChars_isDigit _ c h

/-- Claim C1 counterexample: dispatching `"RUN"` with only two arguments does
fail, but with the very same `Exception('Неизвестный тип тренеровки.')` that
an unknown code produces: the `except Exception` clause of `read_package`
re-labels the arity error, so it is not a distinct error. -/
theorem run_arity_error_relabelled :
    read_package "RUN" [15000, 1]
        = Except.error (PyError.exception "Неизвестный тип тренеровки.") ∧
      read_package "RUN" [15000, 1] = read_package "XYZ" [15000, 1] := by
  decide

/-- Claim C1 (amended): dispatching `"RUN"` with an argument list that does
not match the three-argument constructor raises an error to the caller (it is
not swallowed), but the error is re-labelled by the `except Exception` clause
into the same generic unknown-workout-type exception. -/
theorem run_arity_mismatch_error (data : List ℚ) (h : data.length ≠ 3) :
    read_package "RUN" data
      = Except.error (PyError.exception "Неизвестный тип тренеровки.") := by
  rcases data with _ | ⟨a, _ | ⟨b, _ | ⟨c, _ | ⟨d, rest⟩⟩⟩⟩ <;>
    simp_all [read_package, dispatch]

theorem run_arity_mismatch_error_witness :
    read_package "RUN" [15000, 1]
      = Except.error (PyError.exception "Неизвестный тип тренеровки.") :=
  run_arity_mismatch_error [15000, 1] (by decide)

/-- Claim C2 counterexample: for `("RUN", [15000, 1, 75])` the dispatched
record's calorie formula `(18 * 9.75 - 20) * 75 / 1000 * 1 * 60` evaluates to
`699.75`, not `717.75` as the claim asserts. -/
theorem running_calories_not_717 :
    Running.get_spent_calories ⟨⟨15000, 1, 75⟩⟩ = Except.ok 699.75 ∧
      (699.75 : ℚ) ≠ 717.75 := by
  constructor
  · norm_num [Running.get_spent_calories, Running.get_mean_speed, Training.get_mean_speed,
      Training.get_distance, pyDiv, Training.M_IN_KM, Training.LEN_STEP,
      Running.CAL_RUN_1, Running.CAL_RUN_2, MIN_IN_HOUR]
  · norm_num

/-- Claim C2 (amended): for `("RUN", [15000, 1, 75])` the dispatched record
computes distance `15000 * 0.65 / 1000 = 9.75`, mean speed `9.75 / 1 = 9.75`,
and calories `(18 * 9.75 - 20) * 75 / 1000 * 1 * 60 = 699.75`. -/
theorem running_scenario :
    read_package "RUN" [15000, 1, 75] = Except.ok (Package.running ⟨⟨15000, 1, 75⟩⟩) ∧
      Running.get_distance ⟨⟨15000, 1, 75⟩⟩ = 9.75 ∧
      Running.get_mean_speed ⟨⟨15000, 1, 75⟩⟩ = Except.ok 9.75 ∧
      Running.get_spent_calories ⟨⟨15000, 1, 75⟩⟩
        = Except.ok (((18 : ℚ) * 9.75 - 20) * 75 / 1000 * 1 * 60) ∧
      ((18 : ℚ) * 9.75 - 20) * 75 / 1000 * 1 * 60 = 699.75 := by
  refine ⟨by decide, ?_, ?_, ?_, by norm_num⟩ <;>
    norm_num [Running.get_spent_calories, Running.get_distance, Running.get_mean_speed,
      Training.get_mean_speed, Training.get_distance, pyDiv, Training.M_IN_KM,
      Training.LEN_STEP, Running.CAL_RUN_1, Running.CAL_RUN_2, MIN_IN_HOUR]

/-- Claim C3: swimming uses stride length `1.38` (distinct from the base
`0.65`), so for `("SWM", [720, 1, 80, 25, 40])` the distance is
`720 * 1.38 / 1000 = 0.9936`, the mean speed is `25 * 40 / 1000 / 1 = 1`
(pool length times lap count, independent of the action count), and the
calories are `(1 + 1.1) * 2 * 80 = 336`. -/
theorem swimming_scenario :
    Swimming.LEN_STEP = 1.38 ∧ Training.LEN_STEP = 0.65 ∧
      Swimming.LEN_STEP ≠ Training.LEN_STEP ∧
      read_package "SWM" [720, 1, 80, 25, 40]
        = Except.ok (Package.swimming ⟨⟨720, 1, 80⟩, 25, 40⟩) ∧
      Swimming.get_distance ⟨⟨720, 1, 80⟩, 25, 40⟩ = 0.9936 ∧
      Swimming.get_mean_speed ⟨⟨720, 1, 80⟩, 25, 40⟩ = Except.ok 1 ∧
      (∀ a : ℚ, Swimming.get_mean_speed ⟨⟨a, 1, 80⟩, 25, 40⟩ = Except.ok 1) ∧
      Swimming.get_spent_calories ⟨⟨720, 1, 80⟩, 25, 40⟩ = Except.ok 336 := by
  refine ⟨by norm_num [Swimming.LEN_STEP], by norm_num [Training.LEN_STEP],
    by norm_num [Swimming.LEN_STEP, Training.LEN_STEP], by decide, ?_, ?_, ?_, ?_⟩ <;>
    norm_num [Swimming.get_distance, Swimming.get_mean_speed, Swimming.get_spent_calories,
      pyDiv, Training.M_IN_KM, Swimming.LEN_STEP, Swimming.CAL_SWM_1, Swimming.CAL_SWM_2]

/-- Claim C4: the walking calorie formula floor-divides `meanSpeed ^ 2` by the
height (truncation toward negative infinity, Python `//`), so for
`("WLK", [9000, 1, 75, 180])` the floored term is `0` and the calories are
`0.035 * 75 * 60 = 157.5`; at a quotient with fractional part above one half
the term still floors to `0` (rounding would give `1`), and at a negative
quotient it floors to `-1` (truncation toward zero would give `0`). -/
theorem walking_floor_division :
    SportsWalking.get_spent_calories ⟨⟨9000, 1, 75⟩, 180⟩ = Except.ok 157.5 ∧
      ((0.035 : ℚ) * 75 * 60) = 157.5 ∧
      pyFloorDiv ((5.85 : ℚ) ^ 2) 180 = Except.ok 0 ∧
      pyFloorDiv ((2.5 : ℚ) ^ 2) 7 = Except.ok 0 ∧
      pyFloorDiv ((2.5 : ℚ) ^ 2) (-7) = Except.ok (-1) ∧
      SportsWalking.get_spent_calories ⟨⟨50000, 13, 1⟩, 7⟩ = Except.ok 27.3 ∧
      SportsWalking.get_spent_calories ⟨⟨50000, 13, 1⟩, -7⟩ = Except.ok 4.68 := by
  have hf0 : (⌊((5.85 : ℚ) ^ 2) / 180⌋ : ℤ) = 0 := by
    rw [Int.floor_eq_iff]
    norm_num
  have hf1 : (⌊((2.5 : ℚ) ^ 2) / 7⌋ : ℤ) = 0 := by
    rw [Int.floor_eq_iff]
    norm_num
  have hf2 : (⌊((2.5 : ℚ) ^ 2) / (-7)⌋ : ℤ) = -1 := by
    rw [Int.floor_eq_iff]
    norm_num
  have hs1 : (9000 : ℚ) * Training.LEN_STEP / Training.M_IN_KM / 1 = 5.85 := by
    norm_num [Training.LEN_STEP, Training.M_IN_KM]
  have hs2 : (50000 : ℚ) * Training.LEN_STEP / Training.M_IN_KM / 13 = 2.5 := by
    norm_num [Training.LEN_STEP, Training.M_IN_KM]
  refine ⟨?_, by norm_num, ?_, ?_, ?_, ?_, ?_⟩ <;>
    norm_num [SportsWalking.get_spent_calories, SportsWalking.get_mean_speed,
      Training.get_mean_speed, Training.get_distance, pyDiv, pyFloorDiv,
      Training.M_IN_KM, Training.LEN_STEP, SportsWalking.CAL_WLK_1,
      SportsWalking.CAL_WLK_2, MIN_IN_HOUR, hf0, hf1, hf2, hs1, hs2]

/-- Claim C5: every workout code outside the mapping
`SWM / RUN / WLK` makes the dispatcher fail with the unknown-workout-type
error, whatever the argument list. -/
theorem unknown_code_error (workout_type : String)
    (h : workout_type ∉ (["SWM", "RUN", "WLK"] : List String)) (data : List ℚ) :
    read_package workout_type data
      = Except.error (PyError.exception "Неизвестный тип тренеровки.") := by
  simp only [List.mem_cons, List.mem_singleton, not_or] at h
  obtain ⟨h1, h2, h3⟩ := h
  simp [read_package, dispatch, h1, h2, h3]

theorem unknown_code_error_witness :
    read_package "XYZ" []
      = Except.error (PyError.exception "Неизвестный тип тренеровки.") :=
  unknown_code_error "XYZ" (by decide) []

/-- Claim C6: for every report, the formatter returns the single template
string with the fields in the fixed order type, duration, distance, mean
speed, calories, and each of the four numeric values rendered to exactly
three decimal places. -/
theorem get_message_template (i : InfoMessage) :
    i.get_message = "Тип тренировки: " ++ i.training_type ++ "; Длительность: "
        ++ fmt3 i.duration ++ " ч.; Дистанция: " ++ fmt3 i.distance
        ++ " км; Ср. скорость: " ++ fmt3 i.speed ++ " км/ч; Потрачено ккал: "
        ++ fmt3 i.calories ++ "." ∧
      renders3 (fmt3 i.duration) ∧ renders3 (fmt3 i.distance) ∧
      renders3 (fmt3 i.speed) ∧ renders3 (fmt3 i.calories) :=
  ⟨rfl, fmt3_renders3 _, fmt3_renders3 _, fmt3_renders3 _, fmt3_renders3 _⟩

/-- Claim C7: invoking the calorie computation on the base class raises
`NotImplementedError`, for every base record regardless of its fields. -/
theorem base_calories_not_implemented (t : Training) :
    Training.get_spent_calories t
      = Except.error (PyError.notImplementedError "Этот метод обязателен к переопределению!") :=
  rfl

/-- Claim C8 counterexample: a walking record with positive duration but zero
height makes the calorie computation fail (`float floor division by zero`),
so `durationHours == 0` is not the only error condition of the formula
layer. -/
theorem walking_zero_height_error :
    (0 : ℚ) < 1 ∧
      SportsWalking.get_spent_calories ⟨⟨0, 1, 1⟩, 0⟩
        = Except.error (PyError.zeroDivisionError "float floor division by zero") := by
  constructor
  · norm_num
  · norm_num [SportsWalking.get_spent_calories, SportsWalking.get_mean_speed,
      Training.get_mean_speed, Training.get_distance, pyDiv, pyFloorDiv,
      Training.M_IN_KM, Training.LEN_STEP]

/-- Claim C8 (amended): the formula layer's failures are exactly divisions by
zero: for every record of every variant the mean speed — and with it the
running and swimming calorie formulas — fails (`ZeroDivisionError`) precisely
when the duration is zero; the walking calorie formula fails precisely when
the duration is zero (division) or, with a nonzero duration, when the height
is zero (floor division); distances are total, and with those divisors
nonzero every mean-speed and calorie computation succeeds. -/
theorem formula_error_conditions (t : Training) (r : Running) (s : Swimming)
    (w : SportsWalking) :
    (Training.get_mean_speed t
        = Except.error (PyError.zeroDivisionError "float division by zero")
      ↔ t.duration = 0) ∧
      ((∃ v, Training.get_mean_speed t = Except.ok v) ↔ t.duration ≠ 0) ∧
      (Running.get_mean_speed r
          = Except.error (PyError.zeroDivisionError "float division by zero")
        ↔ r.duration = 0) ∧
      (Running.get_spent_calories r
          = Except.error (PyError.zeroDivisionError "float division by zero")
        ↔ r.duration = 0) ∧
      ((∃ v, Running.get_spent_calories r = Except.ok v) ↔ r.duration ≠ 0) ∧
      (Swimming.get_mean_speed s
          = Except.error (PyError.zeroDivisionError "float division by zero")
        ↔ s.duration = 0) ∧
      (Swimming.get_spent_calories s
          = Except.error (PyError.zeroDivisionError "float division by zero")
        ↔ s.duration = 0) ∧
      ((∃ v, Swimming.get_spent_calories s = Except.ok v) ↔ s.duration ≠ 0) ∧
      (SportsWalking.get_mean_speed w
          = Except.error (PyError.zeroDivisionError "float division by zero")
        ↔ w.duration = 0) ∧
      (SportsWalking.get_spent_calories w
          = Except.error (PyError.zeroDivisionError "float division by zero")
        ↔ w.duration = 0) ∧
      (SportsWalking.get_spent_calories w
          = Except.error (PyError.zeroDivisionError "float floor division by zero")
        ↔ w.duration ≠ 0 ∧ w.height = 0) ∧
      ((∃ v, SportsWalking.get_spent_calories w = Except.ok v)
        ↔ w.duration ≠ 0 ∧ w.height ≠ 0) := by
  by_cases ht : t.duration = 0 <;> by_cases hr : r.duration = 0 <;>
    by_cases hsd : s.duration = 0 <;> by_cases hwd : w.duration = 0 <;>
    by_cases hwh : w.height = 0 <;>
    simp [Training.get_mean_speed, Running.get_mean_speed, Running.get_spent_calories,
      Swimming.get_mean_speed, Swimming.get_spent_calories, SportsWalking.get_mean_speed,
      SportsWalking.get_spent_calories, pyDiv, pyFloorDiv, ht, hr, hsd, hwd, hwh]

theorem formula_error_conditions_witness :
    Training.get_mean_speed ⟨0, 0, 0⟩
        = Except.error (PyError.zeroDivisionError "float division by zero") ∧
      Running.get_spent_calories ⟨⟨15000, 0, 75⟩⟩
        = Except.error (PyError.zeroDivisionError "float division by zero") ∧
      Swimming.get_mean_speed ⟨⟨720, 0, 80⟩, 25, 40⟩
        = Except.error (PyError.zeroDivisionError "float division by zero") ∧
      Swimming.get_spent_calories ⟨⟨720, 0, 80⟩, 25, 40⟩
        = Except.error (PyError.zeroDivisionError "float division by zero") ∧
      SportsWalking.get_spent_calories ⟨⟨9000, 0, 75⟩, 180⟩
        = Except.error (PyError.zeroDivisionError "float division by zero") ∧
      (∃ v, Running.get_spent_calories ⟨⟨15000, 1, 75⟩⟩ = Except.ok v) ∧
      (∃ v, Swimming.get_spent_calories ⟨⟨720, 1, 80⟩, 25, 40⟩ = Except.ok v) ∧
      (∃ v, SportsWalking.get_spent_calories ⟨⟨9000, 1, 75⟩, 180⟩ = Except.ok v) := by
  have hz := formula_error_conditions ⟨0, 0, 0⟩ ⟨⟨15000, 0, 75⟩⟩ ⟨⟨720, 0, 80⟩, 25, 40⟩
    ⟨⟨9000, 0, 75⟩, 180⟩
  have ho := formula_error_conditions ⟨0, 1, 0⟩ ⟨⟨15000, 1, 75⟩⟩ ⟨⟨720, 1, 80⟩, 25, 40⟩
    ⟨⟨9000, 1, 75⟩, 180⟩
  obtain ⟨hzA, -, -, hzD, -, hzF, hzG, -, -, hzJ, -, -⟩ := hz
  obtain ⟨-, -, -, -, hoE, -, -, hoH, -, -, -, hoL⟩ := ho
  exact ⟨hzA.mpr rfl, hzD.mpr rfl, hzF.mpr rfl, hzG.mpr rfl, hzJ.mpr rfl,
    hoE.mpr (by decide), hoH.mpr (by decide), hoL.mpr ⟨by decide, by decide⟩⟩

/-- Claim C9: every record the dispatcher returns successfully is one of the
three concrete variants, each of which overrides the calorie computation, so
producing its report can never reach the base class's `NotImplementedError`
branch. -/
theorem dispatched_report_never_not_implemented (workout_type : String) (data : List ℚ)
    (p : Package) (h : read_package workout_type data = Except.ok p) :
    ((∃ s, p = Package.swimming s) ∨ (∃ r, p = Package.running r) ∨
        (∃ w, p = Package.walking w)) ∧
      ∀ msg, Package.show_training_info p
        ≠ Except.error (PyError.notImplementedError msg) := by
  constructor
  · cases p with
    | swimming s => exact Or.inl ⟨s, rfl⟩
    | running r => exact Or.inr (Or.inl ⟨r, rfl⟩)
    | walking w => exact Or.inr (Or.inr ⟨w, rfl⟩)
  · intro msg
    cases p with
    | swimming s =>
      by_cases hd : s.duration = 0 <;>
        simp [Package.show_training_info, Package.get_mean_speed,
          Package.get_spent_calories, Swimming.get_mean_speed,
          Swimming.get_spent_calories, pyDiv, hd]
    | running r =>
      by_cases hd : r.duration = 0 <;>
        simp [Package.show_training_info, Package.get_mean_speed,
          Package.get_spent_calories, Running.get_mean_speed, Running.get_spent_calories,
          Training.get_mean_speed, pyDiv, hd]
    | walking w =>
      by_cases hd : w.duration = 0 <;> by_cases hh : w.height = 0 <;>
        simp [Package.show_training_info, Package.get_mean_speed,
          Package.get_spent_calories, SportsWalking.get_mean_speed,
          SportsWalking.get_spent_calories, Training.get_mean_speed, pyDiv, pyFloorDiv,
          hd, hh]

theorem dispatched_report_never_not_implemented_witness :
    Package.show_training_info (Package.running ⟨⟨15000, 1, 75⟩⟩)
      ≠ Except.error
        (PyError.notImplementedError "Этот метод обязателен к переопределению!") :=
  (dispatched_report_never_not_implemented "RUN" [15000, 1, 75]
      (Package.running ⟨⟨15000, 1, 75⟩⟩) (by decide)).2
    "Этот метод обязателен к переопределению!"

/-- Claim C10: calorie results are not clamped to be nonnegative: every
running record with nonnegative action count, positive duration and positive
weight whose mean speed is below `20 / 18` km/h gets a strictly negative
calorie count. -/
theorem running_calories_can_be_negative (r : Running) (s : ℚ) (_ha : 0 ≤ r.action)
    (hd : 0 < r.duration) (hw : 0 < r.weight)
    (hs : Running.get_mean_speed r = Except.ok s) (hlt : s < 20 / 18) :
    ∃ c, Running.get_spent_calories r = Except.ok c ∧ c < 0 := by
  refine ⟨(Running.CAL_RUN_1 * s - Running.CAL_RUN_2) * r.weight / Training.M_IN_KM
    * r.duration * MIN_IN_HOUR, ?_, ?_⟩
  · unfold Running.get_spent_calories
    rw [hs]
  · have h1 : Running.CAL_RUN_1 * s - Running.CAL_RUN_2 < 0 := by
      unfold Running.CAL_RUN_1 Running.CAL_RUN_2
      nlinarith [hlt]
    have h2 : (Running.CAL_RUN_1 * s - Running.CAL_RUN_2) * r.weight < 0 :=
      mul_neg_of_neg_of_pos h1 hw
    have h3 : (Running.CAL_RUN_1 * s - Running.CAL_RUN_2) * r.weight / Training.M_IN_KM < 0 := by
      unfold Training.M_IN_KM
      exact div_neg_of_neg_of_pos h2 (by norm_num)
    have h4 := mul_neg_of_neg_of_pos h3 hd
    unfold MIN_IN_HOUR
    nlinarith [h4]

theorem running_calories_can_be_negative_witness :
    ∃ c, Running.get_spent_calories ⟨⟨100, 1, 1⟩⟩ = Except.ok c ∧ c < 0 :=
  running_calories_can_be_negative ⟨⟨100, 1, 1⟩⟩ 0.065 (by norm_num) (by norm_num)
    (by norm_num)
    (by norm_num [Running.get_mean_speed, Training.get_mean_speed, Training.get_distance,
      pyDiv, Training.M_IN_KM, Training.LEN_STEP])
    (by norm_num)
